import Mathlib

/-
Verification of the Parkinsons_Variant_Viewer enrichment pipeline.

Shallow embedding of the Python sources:
  - src/parkinsons_variant_viewer/clinvar_api.py
      (map_review_status_to_stars, get_variant_info, fetch_clinvar_variant)
  - src/parkinsons_variant_viewer/hgvs_variant.py (HGVSVariant._query_lovd)
  - src/parkinsons_variant_viewer/web/loaders/vcf_loader.py (load_vcf_into_db)

Python strings are modelled as Lean String (list of characters), Python's
str methods are re-implemented below with matching semantics (ASCII case
mapping; Python's extra unicode handling is out of scope for the data this
program processes).  Parsed XML/JSON documents (the output of
xmltodict.parse / response.json()) are modelled as a tagged tree XVal of
strings, lists and string-keyed mappings.  External HTTP traffic is
modelled by oracle functions, and the calls actually issued are returned
as an explicit trace so that claims about "no call is made" / "a delay
follows every call" are statable.  Exceptions are modelled with Except.
-/

namespace PVV

/-! ## Python string primitives -/

/-- ASCII lower-casing of one character, as Python str.lower does on ASCII. -/
def lowerChar (c : Char) : Char :=
  if 'A' ≤ c ∧ c ≤ 'Z' then Char.ofNat (c.toNat + 32) else c

/-- Python s.lower() (ASCII fragment). -/
def pyLower (s : String) : String := ⟨s.data.map lowerChar⟩

/-- Python s.startswith(pre). -/
def pyStartsWith (s pre : String) : Bool := pre.data.isPrefixOf s.data

/-- Characters stripped by Python str.strip(). -/
def pyIsSpace (c : Char) : Bool :=
  c = ' ' || c = '\t' || c = '\n' || c = '\x0d' || c = '\x0b' || c = '\x0c'

/-- Python s.strip(). -/
def pyStrip (s : String) : String :=
  ⟨((s.data.dropWhile pyIsSpace).reverse.dropWhile pyIsSpace).reverse⟩

/-- Substring test on character lists: needle occurs inside hay. -/
def containsSubL (needle : List Char) : List Char → Bool
  | [] => needle.isEmpty
  | c :: rest => needle.isPrefixOf (c :: rest) || containsSubL needle rest

/-- Python (needle in hay) for strings. -/
def pyContains (hay needle : String) : Bool := containsSubL needle.data hay.data

/-- Split a character list on a separator character (Python str.split(sep)). -/
def splitOnChar (sep : Char) : List Char → List (List Char)
  | [] => [[]]
  | c :: rest =>
    let r := splitOnChar sep rest
    if c = sep then [] :: r
    else
      match r with
      | h :: t => (c :: h) :: t
      | [] => [[c]]

/-- Python s.split(sep) for a single-character separator. -/
def pySplit (sep : Char) (s : String) : List String :=
  (splitOnChar sep s.data).map (fun l => ⟨l⟩)

/-- Fuel-driven worker for pyReplace; fuel is at least the list length, so the
fuel-0 case is never reached on the initial call. -/
def replaceAux (pat rep : List Char) : Nat → List Char → List Char
  | _, [] => []
  | 0, cs => cs
  | fuel + 1, c :: cs =>
    if pat.isPrefixOf (c :: cs) then rep ++ replaceAux pat rep fuel (List.drop pat.length (c :: cs))
    else c :: replaceAux pat rep fuel cs

/-- Python s.replace(pat, rep) for a non-empty pattern (all occurrences,
left to right, non-overlapping).  The sources only use non-empty patterns. -/
def pyReplace (s pat rep : String) : String :=
  if pat.data.isEmpty then s
  else ⟨replaceAux pat.data rep.data s.data.length s.data⟩

/-- Digit run with Python int()'s underscore rule: nonempty, underscores only
between digits.  Returns the decimal value. -/
def pyDigitsAux : List Char → Nat → Bool → Option Nat
  | [], acc, lastDigit => if lastDigit then some acc else none
  | c :: rest, acc, lastDigit =>
    if c.isDigit then pyDigitsAux rest (acc * 10 + (c.toNat - 48)) true
    else if c = '_' then (if lastDigit then pyDigitsAux rest acc false else none)
    else none

/-- Python int(s): strip whitespace, optional sign, digits (with the
underscore-between-digits allowance); none when int() would raise ValueError. -/
def pyInt? (s : String) : Option Int :=
  match (pyStrip s).data with
  | '+' :: rest => (pyDigitsAux rest 0 false).map Int.ofNat
  | '-' :: rest => (pyDigitsAux rest 0 false).map (fun n => -(Int.ofNat n))
  | cs => (pyDigitsAux cs 0 false).map Int.ofNat

/-- Python s.isdigit() (ASCII fragment: nonempty and all decimal digits). -/
def pyIsDigitStr (s : String) : Bool := !s.data.isEmpty && s.data.all Char.isDigit

/-- Decimal value of an all-digit character list. -/
def decValue (cs : List Char) : Nat := cs.foldl (fun n c => n * 10 + (c.toNat - 48)) 0

/-- Fuel-driven decimal rendering worker. -/
def natToStrAux : Nat → Nat → List Char → List Char
  | 0, _, acc => acc
  | fuel + 1, n, acc =>
    let d := Char.ofNat (48 + n % 10)
    if n < 10 then d :: acc else natToStrAux fuel (n / 10) (d :: acc)

/-- Python str(n) for a natural number. -/
def natToStr (n : Nat) : String := ⟨natToStrAux (n + 1) n []⟩

/-- Python str(i) for an integer. -/
def intToStr (i : Int) : String :=
  if i < 0 then "-" ++ natToStr i.natAbs else natToStr i.toNat

/-- Python sep.join(xs). -/
def joinWith (sep : String) : List String → String
  | [] => ""
  | [x] => x
  | x :: y :: rest => x ++ sep ++ joinWith sep (y :: rest)

/-! ## Star-Rating Classifier (clinvar_api.map_review_status_to_stars) -/

/-- Embedding of clinvar_api.map_review_status_to_stars for a string-or-None
argument ("if not status" is true exactly for None and the empty string). -/
def map_review_status_to_stars (status : Option String) : String :=
  match status with
  | none => "0"
  | some s =>
    if s.data.isEmpty then "0"
    else
      let t := pyLower s
      if pyContains t "expert panel" then "4"
      else if pyContains t "multiple submitters" && pyContains t "no conflict" then "3"
      else if pyContains t "multiple submitters" then "2"
      else if pyContains t "single submitter" then "1"
      else if pyContains t "no assertion" || pyContains t "no criteria" then "0"
      else "N/A"

/-! ## Parsed-document model

xmltodict.parse and response.json() produce nested structures of strings,
lists and string-keyed mappings; XVal is that value universe. -/

inductive XVal where
  | s (v : String)
  | arr (items : List XVal)
  | obj (fields : List (String × XVal))

/-- Python truthiness of an XVal (empty string/list/dict are falsy). -/
def truthy : XVal → Bool
  | XVal.s v => !v.data.isEmpty
  | XVal.arr items => !items.isEmpty
  | XVal.obj fields => !fields.isEmpty

/-- Python truthiness of an optional XVal (None is falsy). -/
def truthyO : Option XVal → Bool
  | none => false
  | some v => truthy v

/-- Dictionary field lookup (keys produced by xmltodict are unique). -/
def lookupField (fields : List (String × XVal)) (k : String) : Option XVal :=
  (fields.find? (fun p => p.1 == k)).map (fun p => p.2)

/-- Python v.get(k, default-dict) on a value that must be a dict; a non-dict
raises AttributeError, modelled as the error case. -/
def pyGetD (v : XVal) (k : String) : Except Unit XVal :=
  match v with
  | XVal.obj fields => Except.ok ((lookupField fields k).getD (XVal.obj []))
  | _ => Except.error ()

/-- The listify idiom (if not isinstance(x, list): x = [x]). -/
def listify : XVal → List XVal
  | XVal.arr items => items
  | v => [v]

/-- Option-level version of (x == "literal") in Python (None compares unequal). -/
def xIsStrVal : Option XVal → String → Bool
  | some (XVal.s t), u => t == u
  | _, _ => false

/-- Python str(v) as used in one f-string on a gene id.  For strings this is
the string itself; for nested values Python would print the container repr,
abbreviated here (no claim depends on that rendering). -/
def pyStr : XVal → String
  | XVal.s t => t
  | XVal.arr _ => "[?]"
  | XVal.obj _ => "\x7b?\x7d"

/-! ## Clinical annotation extraction (clinvar_api.get_variant_info)

The Python function builds a mutable result dict inside one try/except that
catches every exception and keeps whatever was extracted so far.  That is
modelled with the state-carrying Except VariantInfo VariantInfo: ok carries
the state after a section, error carries the partial state at the point the
exception was raised. -/

/-- The fields of clinvar_api's VariantInfo (all individually nullable,
since Python initializes each of them with kwargs.get). -/
structure VariantInfo where
  hgvs : Option XVal
  clinvar_id : Option XVal
  chrom : Option XVal
  pos : Option XVal
  variant_id : Option XVal
  ref : Option XVal
  alt : Option XVal
  clinical_significance : Option XVal
  star_rating : Option XVal
  review_status : Option XVal
  conditions_assoc : Option XVal
  transcript : Option XVal
  ref_seq_id : Option XVal
  hgnc_id : Option XVal
  omim_id : Option XVal
  gene_symbol : Option XVal

/-- VariantInfo with every field absent. -/
def blankInfo : VariantInfo :=
  { hgvs := none, clinvar_id := none, chrom := none, pos := none,
    variant_id := none, ref := none, alt := none,
    clinical_significance := none, star_rating := none, review_status := none,
    conditions_assoc := none, transcript := none, ref_seq_id := none,
    hgnc_id := none, omim_id := none, gene_symbol := none }

/-- The dictionary returned by fetch_clinvar_variant.  hgvs is the argument
(possibly Python None); clinvar_id is present only on the found path. -/
structure FetchData where
  variant : Option XVal
  summary : Option XVal
  hgvs : Option String
  found : Bool
  clinvar_id : Option XVal

/-- Sequencing of extraction sections: an exception in an earlier section
skips the rest while keeping the partial state (Python's single try block). -/
def andThenE (x : Except VariantInfo VariantInfo)
    (f : VariantInfo → Except VariantInfo VariantInfo) : Except VariantInfo VariantInfo :=
  match x with
  | Except.ok r => f r
  | Except.error r => Except.error r

/-- Leaving the try/except: the exception is logged and the partial result
is returned (lines 214-217 of clinvar_api.py). -/
def collapseTry : Except VariantInfo VariantInfo → VariantInfo
  | Except.ok r => r
  | Except.error r => r

/-- map_review_status_to_stars applied to the raw extracted review-status
value: a falsy value maps to "0", a non-empty string is classified, and any
other truthy value raises at status.lower(). -/
def pyMapStars (status : Option XVal) : Except Unit String :=
  match status with
  | none => Except.ok "0"
  | some (XVal.s t) => Except.ok (map_review_status_to_stars (some t))
  | some v => if truthy v then Except.error () else Except.ok "0"

/-- The not-found early return of get_variant_info (lines 110-115): only
clinical_significance is given a sentinel, everything else stays absent. -/
def notFoundInfo (data : FetchData) : VariantInfo :=
  { blankInfo with
    hgvs := data.hgvs.map XVal.s,
    clinvar_id := some (data.clinvar_id.getD (XVal.s "")),
    clinical_significance := some (XVal.s "Not found") }

/-- The default result dict of get_variant_info (lines 121-129). -/
def defaultInfo (data : FetchData) : VariantInfo :=
  { blankInfo with
    hgvs := data.hgvs.map XVal.s,
    clinvar_id := some (data.clinvar_id.getD (XVal.s "")),
    variant_id := some (data.clinvar_id.getD (XVal.s "")),
    clinical_significance := some (XVal.s "Unknown"),
    star_rating := some (XVal.s "N/A"),
    review_status := some (XVal.s "Unknown"),
    conditions_assoc := some (XVal.s "Unknown") }

/-- Basic info section (lines 132-140): accession, and the transcript taken
from the title by re.match followed by strip. -/
def secBasic (fs : List (String × XVal)) (r : VariantInfo) : Except VariantInfo VariantInfo :=
  let r1 := { r with variant_id := some ((lookupField fs "accession").getD (r.clinvar_id.getD (XVal.s ""))) }
  let title := (lookupField fs "title").getD (XVal.s "")
  if truthy title then
    match title with
    | XVal.s t =>
      let m := t.data.takeWhile (fun c => c ≠ '(')
      if m.isEmpty then Except.ok r1
      else Except.ok { r1 with transcript := some (XVal.s (pyStrip ⟨m⟩)) }
    | _ => Except.error r1
  else Except.ok r1

/-- OMIM cross-reference loop over one trait's xrefs (lines 167-169);
the last matching xref wins, a non-dict xref raises. -/
def xrefLoop : List XVal → VariantInfo → Except VariantInfo VariantInfo
  | [], r => Except.ok r
  | x :: rest, r =>
    match x with
    | XVal.obj xf =>
      let r1 := if xIsStrVal (lookupField xf "db_source") "OMIM"
                then { r with omim_id := lookupField xf "db_id" } else r
      xrefLoop rest r1
    | _ => Except.error r

/-- Trait loop (lines 157-169): collects trait names in document order and
scans each trait's xrefs; a non-dict trait or xref container raises. -/
def traitLoop : List XVal → VariantInfo → List XVal → Except VariantInfo (VariantInfo × List XVal)
  | [], r, acc => Except.ok (r, acc)
  | t :: rest, r, acc =>
    match t with
    | XVal.obj tf =>
      let name := (lookupField tf "trait_name").getD (XVal.s "")
      let acc1 := if truthy name then acc ++ [name] else acc
      match (lookupField tf "trait_xrefs").getD (XVal.obj []) with
      | XVal.obj xfs =>
        let xrefs := listify ((lookupField xfs "trait_xref").getD (XVal.arr []))
        match xrefLoop xrefs r with
        | Except.error r2 => Except.error r2
        | Except.ok r2 => traitLoop rest r2 acc1
      | _ => Except.error r
    | _ => Except.error r

/-- Collected condition names, all of which must be strings for
"; ".join (a non-string raises TypeError). -/
def asStrs : List XVal → Option (List String)
  | [] => some []
  | XVal.s t :: rest => (asStrs rest).map (fun l => t :: l)
  | _ :: _ => none

/-- Clinical-significance section (lines 143-172): description, review
status, derived star rating, conditions and OMIM id. -/
def secGermline (fs : List (String × XVal)) (r : VariantInfo) : Except VariantInfo VariantInfo :=
  let germ := (lookupField fs "germline_classification").getD (XVal.obj [])
  if truthy germ then
    match germ with
    | XVal.obj gfs =>
      let r1 := { r with
        clinical_significance := some ((lookupField gfs "description").getD (XVal.s "Unknown")),
        review_status := some ((lookupField gfs "review_status").getD (XVal.s "Unknown")) }
      match pyMapStars r1.review_status with
      | Except.error _ => Except.error r1
      | Except.ok stars =>
        let r2 := { r1 with star_rating := some (XVal.s stars) }
        let ts := (lookupField gfs "trait_set").getD (XVal.obj [])
        if truthy ts then
          match ts with
          | XVal.obj tfs =>
            let traits := listify ((lookupField tfs "trait").getD (XVal.arr []))
            match traitLoop traits r2 [] with
            | Except.error r3 => Except.error r3
            | Except.ok (r3, conds) =>
              if conds.isEmpty then Except.ok r3
              else
                match asStrs conds with
                | some names => Except.ok { r3 with conditions_assoc := some (XVal.s (joinWith "; " names)) }
                | none => Except.error r3
          | _ => Except.error r2
        else Except.ok r2
    | _ => Except.error r
  else Except.ok r

/-- SPDI decoding (lines 177-185): with at least 4 colon-delimited parts,
part 0 is the reference sequence, part 1 the 0-based position (rendered
1-based when all digits, verbatim otherwise), parts 2/3 the alleles. -/
def applySpdi (spdi : String) (r : VariantInfo) : VariantInfo :=
  let parts := pySplit ':' spdi
  if 4 ≤ parts.length then
    { r with
      ref_seq_id := some (XVal.s (parts.getD 0 "")),
      pos := some (XVal.s (if pyIsDigitStr (parts.getD 1 "")
                           then natToStr (decValue (parts.getD 1 "").data + 1)
                           else parts.getD 1 "")),
      ref := some (XVal.s (parts.getD 2 "")),
      alt := some (XVal.s (parts.getD 3 "")) }
  else r

/-- Chromosome scan over the assembly list (lines 194-199): an entry is
accepted when its status is "current" or chrom is still unset, and the scan
stops at the first accepted entry; a non-dict entry raises. -/
def chromLoop : List XVal → VariantInfo → Except VariantInfo VariantInfo
  | [], r => Except.ok r
  | a :: rest, r =>
    match a with
    | XVal.obj af =>
      if xIsStrVal (lookupField af "status") "current" || !truthyO r.chrom then
        let r1 := { r with chrom := some ((lookupField af "chr").getD (XVal.s "")) }
        let r2 := if !truthyO r1.pos
                  then { r1 with pos := some ((lookupField af "start").getD (XVal.s "")) }
                  else r1
        Except.ok r2
      else chromLoop rest r
    | _ => Except.error r

/-- Genomic-coordinates section (lines 175-199): SPDI decoding then the
chromosome scan. -/
def secCoords (fs : List (String × XVal)) (r : VariantInfo) : Except VariantInfo VariantInfo :=
  match (lookupField fs "variation_set").getD (XVal.obj []) with
  | XVal.obj vsf =>
    let varSet := (lookupField vsf "variation").getD (XVal.obj [])
    if truthy varSet then
      match varSet with
      | XVal.obj vf =>
        let spdiV := (lookupField vf "canonical_spdi").getD (XVal.s "")
        let afterSpdi : Except VariantInfo VariantInfo :=
          if truthy spdiV then
            match spdiV with
            | XVal.s spdi => Except.ok (applySpdi spdi r)
            | _ => Except.error r
          else Except.ok r
        match afterSpdi with
        | Except.error r1 => Except.error r1
        | Except.ok r1 =>
          let varLoc := (lookupField vf "variation_loc").getD (XVal.obj [])
          if truthy varLoc then
            match varLoc with
            | XVal.obj lf =>
              chromLoop (listify ((lookupField lf "assembly_set").getD (XVal.arr []))) r1
            | _ => Except.error r1
          else Except.ok r1
      | _ => Except.error r
    else Except.ok r
  | _ => Except.error r

/-- Gene loop (lines 206-212): the first dict entry supplies symbol and the
synthesized GeneID cross-reference; non-dict entries are passed over. -/
def geneLoop : List XVal → VariantInfo → VariantInfo
  | [], r => r
  | g :: rest, r =>
    match g with
    | XVal.obj gf =>
      let r1 := { r with gene_symbol := some ((lookupField gf "symbol").getD (XVal.s "")) }
      let gid := (lookupField gf "GeneID").getD (XVal.s "")
      if truthy gid then { r1 with hgnc_id := some (XVal.s ("GeneID:" ++ pyStr gid)) } else r1
    | _ => geneLoop rest r

/-- Gene-info section (lines 202-212). -/
def secGenes (fs : List (String × XVal)) (r : VariantInfo) : Except VariantInfo VariantInfo :=
  match (lookupField fs "genes").getD (XVal.obj []) with
  | XVal.obj gf =>
    Except.ok (geneLoop (listify ((lookupField gf "gene").getD (XVal.arr []))) r)
  | _ => Except.error r

/-- The whole try block (lines 131-215); summary.get on a non-dict summary
raises inside the try. -/
def tryBody (summary : XVal) (r : VariantInfo) : Except VariantInfo VariantInfo :=
  match summary with
  | XVal.obj fs =>
    andThenE (andThenE (andThenE (secBasic fs r) (secGermline fs)) (secCoords fs)) (secGenes fs)
  | _ => Except.error r

/-- Embedding of clinvar_api.get_variant_info.  The three .get steps that
unwrap the esummary envelope (line 118) run outside the try block, so a
non-dict at those levels propagates out of the function (the Unit error). -/
def get_variant_info (data : FetchData) : Except Unit VariantInfo :=
  if data.found then
    match pyGetD (data.summary.getD (XVal.obj [])) "eSummaryResult" with
    | Except.error e => Except.error e
    | Except.ok a =>
      match pyGetD a "DocumentSummarySet" with
      | Except.error e => Except.error e
      | Except.ok b =>
        match pyGetD b "DocumentSummary" with
        | Except.error e => Except.error e
        | Except.ok summary => Except.ok (collapseTry (tryBody summary (defaultInfo data)))
  else Except.ok (notFoundInfo data)

/-! ## Two-phase ClinVar lookup (clinvar_api.fetch_clinvar_variant)

Each endpoint is an oracle from the request to a transport outcome: none is
a transport-level exception from requests.get, some (ok, doc) is a response
whose raise_for_status succeeds iff ok, with parsed body doc. -/

/-- The three eutils endpoints used by fetch_clinvar_variant. -/
structure Net where
  search : String → Option (Bool × XVal)
  efetch : XVal → Option (Bool × XVal)
  esummary : XVal → Option (Bool × XVal)

/-- One external call issued by fetch_clinvar_variant. -/
inductive CallRec where
  | search (term : String)
  | efetch (id : XVal)
  | esummary (id : XVal)

/-- The esearch term f-string (a Python None argument renders as "None"). -/
def searchTerm (hgvs : Option String) : String :=
  "\"" ++ (match hgvs with | none => "None" | some t => t) ++ "\"[variant name]"

/-- Id extraction from the parsed esearch document (lines 32-39): the
Id value may be a single string or a list; ok none means zero identifiers;
the error is an uncaught AttributeError/KeyError on an unexpected shape. -/
def extractId (doc : XVal) : Except Unit (Option XVal) :=
  match pyGetD doc "eSearchResult" with
  | Except.error e => Except.error e
  | Except.ok esr =>
    match pyGetD esr "IdList" with
    | Except.error e => Except.error e
    | Except.ok idList =>
      match idList with
      | XVal.obj fs =>
        match (lookupField fs "Id").getD (XVal.arr []) with
        | XVal.s t => Except.ok (some (XVal.s t))
        | XVal.arr [] => Except.ok none
        | XVal.arr (x :: _) => Except.ok (some x)
        | XVal.obj [] => Except.ok none
        | XVal.obj (_ :: _) => Except.error ()
      | _ => Except.error ()

/-- Failure modes of fetch_clinvar_variant: apiError is the raised
ClinVarApiError (any requests failure), typeError an uncaught shape error. -/
inductive FetchErr where
  | apiError
  | typeError

/-- Embedding of clinvar_api.fetch_clinvar_variant: always issues the
esearch call; with zero identifiers returns the found=false record with no
further calls; otherwise issues efetch and esummary for the first id. -/
def fetch_clinvar_variant (net : Net) (hgvs : Option String) :
    Except FetchErr FetchData × List CallRec :=
  let term := searchTerm hgvs
  match net.search term with
  | none => (Except.error FetchErr.apiError, [CallRec.search term])
  | some (ok, doc) =>
    if !ok then (Except.error FetchErr.apiError, [CallRec.search term])
    else
      match extractId doc with
      | Except.error _ => (Except.error FetchErr.typeError, [CallRec.search term])
      | Except.ok none =>
        (Except.ok { variant := none, summary := none, hgvs := hgvs,
                     found := false, clinvar_id := none },
         [CallRec.search term])
      | Except.ok (some vid) =>
        match net.efetch vid with
        | none => (Except.error FetchErr.apiError,
                   [CallRec.search term, CallRec.efetch vid])
        | some (ok1, fdoc) =>
          match net.esummary vid with
          | none => (Except.error FetchErr.apiError,
                     [CallRec.search term, CallRec.efetch vid, CallRec.esummary vid])
          | some (ok2, sdoc) =>
            if !ok1 || !ok2 then
              (Except.error FetchErr.apiError,
               [CallRec.search term, CallRec.efetch vid, CallRec.esummary vid])
            else
              (Except.ok { variant := some fdoc, summary := some sdoc, hgvs := hgvs,
                           found := true, clinvar_id := some vid },
               [CallRec.search term, CallRec.efetch vid, CallRec.esummary vid])

/-! ## Coordinate resolver call pacing (hgvs_variant.HGVSVariant._query_lovd) -/

/-- The attribute state of an HGVSVariant instance used to build the URL. -/
structure HGVSVariant where
  chrom : String
  pos : Int
  ref : String
  alt : String
  genome_build : String

/-- The pseudo-VCF variant description f-string. -/
def variantDesc (v : HGVSVariant) : String :=
  v.chrom ++ ":" ++ intToStr v.pos ++ ":" ++ v.ref ++ ":" ++ v.alt

/-- The LOVD request URL built by _query_lovd. -/
def lovdUrl (v : HGVSVariant) (transcriptModel selectTr checkonly liftover : String) : String :=
  "https://rest.variantvalidator.org/LOVD/lovd" ++ "/" ++ v.genome_build ++ "/" ++
    variantDesc v ++ "/" ++ transcriptModel ++ "/" ++ selectTr ++ "/" ++
    checkonly ++ "/" ++ liftover ++ "?content-type=application/json"

/-- Transport oracle for the LOVD endpoint: none is a transport exception,
some (ok, doc) a response passing raise_for_status iff ok. -/
structure LovdNet where
  resp : String → Option (Bool × XVal)

/-- Observable effects of _query_lovd: the HTTP GET and the pacing sleep. -/
inductive Eff where
  | httpGet (url : String)
  | sleepMs (ms : Nat)

/-- True for the sleep effect. -/
def effIsSleep : Eff → Bool
  | Eff.sleepMs _ => true
  | _ => false

/-- Embedding of HGVSVariant._query_lovd (lines 104-126): on a transport
exception or an error status the exception is re-raised before the
time.sleep(0.25) line is reached, so only the success path sleeps. -/
def query_lovd (net : LovdNet) (v : HGVSVariant)
    (transcriptModel selectTr checkonly liftover : String) : Except Unit XVal × List Eff :=
  let url := lovdUrl v transcriptModel selectTr checkonly liftover
  match net.resp url with
  | none => (Except.error (), [Eff.httpGet url])
  | some (ok, doc) =>
    if ok then (Except.ok doc, [Eff.httpGet url, Eff.sleepMs 250])
    else (Except.error (), [Eff.httpGet url])

/-! ## Ingestion (web/loaders/vcf_loader.load_vcf_into_db)

The inputs table is a list of rows in insertion order; the SELECT existence
check is an any-scan on the composite key; INSERT appends.  The file is the
list of its lines (without trailing newlines, which the code strips). -/

/-- One row of the inputs table. -/
structure Row where
  patient_id : Int
  variant_number : Nat
  chrom : String
  pos : String
  vid : String
  ref : String
  alt : String
deriving DecidableEq

/-- The SELECT 1 FROM inputs WHERE patient_id = ? AND variant_number = ?
existence check. -/
def rowExists (db : List Row) (pid : Int) (v : Nat) : Bool :=
  db.any (fun r => r.patient_id == pid && r.variant_number == v)

/-- Python pathlib Path(p).stem: the final path component without its last
suffix (a lone leading or trailing dot is not a suffix). -/
def lastIdxOfDot : List Char → Nat → Option Nat
  | [], _ => none
  | c :: rest, i =>
    match lastIdxOfDot rest (i + 1) with
    | some j => some j
    | none => if c = '.' then some i else none

/-- The filename stem of a path. -/
def stemOf (path : String) : String :=
  let name : List Char := (splitOnChar '/' path.data).getLastD []
  match lastIdxOfDot name 0 with
  | some i => if 0 < i ∧ i < name.length - 1 then ⟨name.take i⟩ else ⟨name⟩
  | none => ⟨name⟩

/-- Parse of one data line (line 42): strip, split on tab, take the first
five fields; fewer than five fields raises ValueError at the unpacking. -/
def parseLine (l : String) : Option (String × String × String × String × String) :=
  match pySplit '\t' (pyStrip l) with
  | c :: p :: i :: r :: a :: _ => some (c, p, i, r, a)
  | _ => none

/-- State after the per-line loop: the table, the two counters, and the
ordinal consumed by each non-comment line in file order. -/
structure LoopRes where
  db : List Row
  ins : Nat
  skp : Nat
  ords : List Nat
deriving DecidableEq

/-- The per-line loop of load_vcf_into_db (lines 38-66): comment lines are
skipped without an ordinal; each non-comment line consumes the next ordinal,
is checked for existence, and is inserted only when absent.  none models the
ValueError escape on a malformed line (nothing is committed). -/
def loadLoop (pid : Int) : List String → List Row → Nat → Option LoopRes
  | [], db, _ => some { db := db, ins := 0, skp := 0, ords := [] }
  | l :: rest, db, v =>
    if pyStartsWith l "#" then loadLoop pid rest db v
    else
      match parseLine l with
      | none => none
      | some (c, p, i, r, a) =>
        if rowExists db pid v then
          (loadLoop pid rest db (v + 1)).map
            (fun res => { db := res.db, ins := res.ins, skp := res.skp + 1, ords := v :: res.ords })
        else
          (loadLoop pid rest
              (db ++ [{ patient_id := pid, variant_number := v, chrom := c,
                        pos := p, vid := i, ref := r, alt := a }]) (v + 1)).map
            (fun res => { db := res.db, ins := res.ins + 1, skp := res.skp, ords := v :: res.ords })

/-- Per-file outcome of load_vcf_into_db: the two whole-file rejections
(warning for a non-patient name, error for an unparseable id), the
uncommitted crash on a malformed line, or a completed load with its patient
id, counters and consumed ordinals. -/
inductive LoadStatus where
  | warnedNonPatient
  | erroredBadId
  | crashed
  | done (patient_id : Int) (inserted skipped : Nat) (ords : List Nat)
deriving DecidableEq

/-- Embedding of load_vcf_into_db: returns the table after the call
(unchanged unless the load completes and commits) with the outcome. -/
def load_vcf_into_db (path : String) (lines : List String) (db : List Row) :
    List Row × LoadStatus :=
  let stem := stemOf path
  if pyStartsWith (pyLower stem) "patient" = false then (db, LoadStatus.warnedNonPatient)
  else
    match pyInt? (pyReplace (pyReplace stem "Patient" "") "patient" "") with
    | none => (db, LoadStatus.erroredBadId)
    | some pid =>
      match loadLoop pid lines db 1 with
      | none => (db, LoadStatus.crashed)
      | some res => (res.db, LoadStatus.done pid res.ins res.skp res.ords)

/-- Number of non-comment lines of a file. -/
def nonCommentCount (lines : List String) : Nat :=
  (lines.filter (fun l => !pyStartsWith l "#")).length

/-- A sequence of loader calls (load_vcfs.py folds the loader over the
input directory; each call works on the table left by the previous one). -/
def loadMany (files : List (String × List String)) (db : List Row) : List Row :=
  files.foldl (fun d f => (load_vcf_into_db f.1 f.2 d).1) db

/-- Uniqueness of the composite natural key (patient_id, variant_number). -/
def uniqKeys (db : List Row) : Prop :=
  List.Pairwise (fun a b => ¬(a.patient_id = b.patient_id ∧ a.variant_number = b.variant_number)) db

/-! ## Claim C1 -/

/-- C1: map_review_status_to_stars is a pure function of the review-status
text that matches case-insensitive substrings in this precedence order:
"expert panel" gives "4"; else "multiple submitters" with "no conflict"
gives "3"; else "multiple submitters" gives "2"; else "single submitter"
gives "1"; else "no assertion" or "no criteria" gives "0"; empty or null
input gives "0"; anything else gives "N/A"; and the example
"reviewed by expert panel, multiple submitters, no conflict" maps to "4". -/
theorem star_rating_precedence :
    (∀ s : String,
      (pyContains (pyLower s) "expert panel" = true →
        map_review_status_to_stars (some s) = "4") ∧
      (pyContains (pyLower s) "expert panel" = false →
       pyContains (pyLower s) "multiple submitters" = true →
       pyContains (pyLower s) "no conflict" = true →
        map_review_status_to_stars (some s) = "3") ∧
      (pyContains (pyLower s) "expert panel" = false →
       pyContains (pyLower s) "multiple submitters" = true →
       pyContains (pyLower s) "no conflict" = false →
        map_review_status_to_stars (some s) = "2") ∧
      (pyContains (pyLower s) "expert panel" = false →
       pyContains (pyLower s) "multiple submitters" = false →
       pyContains (pyLower s) "single submitter" = true →
        map_review_status_to_stars (some s) = "1") ∧
      (pyContains (pyLower s) "expert panel" = false →
       pyContains (pyLower s) "multiple submitters" = false →
       pyContains (pyLower s) "single submitter" = false →
       (pyContains (pyLower s) "no assertion" = true ∨
        pyContains (pyLower s) "no criteria" = true) →
        map_review_status_to_stars (some s) = "0") ∧
      (s.data.isEmpty = false →
       pyContains (pyLower s) "expert panel" = false →
       pyContains (pyLower s) "multiple submitters" = false →
       pyContains (pyLower s) "single submitter" = false →
       pyContains (pyLower s) "no assertion" = false →
       pyContains (pyLower s) "no criteria" = false →
        map_review_status_to_stars (some s) = "N/A")) ∧
    map_review_status_to_stars none = "0" ∧
    map_review_status_to_stars (some "") = "0" ∧
    map_review_status_to_stars
      (some "reviewed by expert panel, multiple submitters, no conflict") = "4" := by
  refine ⟨fun s => ?_, rfl, rfl, by decide⟩
  have hempty : ∀ needle : String, needle.data.isEmpty = false →
      s.data = [] → pyContains (pyLower s) needle = false := by
    intro needle hn hs
    simp [pyContains, pyLower, hs, containsSubL, List.isEmpty_iff] at hn ⊢
    intro h
    exact absurd h hn
  refine ⟨?_, ?_, ?_, ?_, ?_, ?_⟩
  · intro h1
    by_cases hd : s.data.isEmpty = true
    · rw [hempty "expert panel" (by decide) (List.isEmpty_iff.mp hd)] at h1
      exact absurd h1 (by decide)
    · simp only [map_review_status_to_stars]
      simp [hd, h1]
  · intro h1 h2 h3
    by_cases hd : s.data.isEmpty = true
    · rw [hempty "multiple submitters" (by decide) (List.isEmpty_iff.mp hd)] at h2
      exact absurd h2 (by decide)
    · simp only [map_review_status_to_stars]
      simp [hd, h1, h2, h3]
  · intro h1 h2 h3
    by_cases hd : s.data.isEmpty = true
    · rw [hempty "multiple submitters" (by decide) (List.isEmpty_iff.mp hd)] at h2
      exact absurd h2 (by decide)
    · simp only [map_review_status_to_stars]
      simp [hd, h1, h2, h3]
  · intro h1 h2 h3
    by_cases hd : s.data.isEmpty = true
    · rw [hempty "single submitter" (by decide) (List.isEmpty_iff.mp hd)] at h3
      exact absurd h3 (by decide)
    · simp only [map_review_status_to_stars]
      simp [hd, h1, h2, h3]
  · intro h1 h2 h3 h4
    by_cases hd : s.data.isEmpty = true
    · rcases h4 with h4 | h4
      · rw [hempty "no assertion" (by decide) (List.isEmpty_iff.mp hd)] at h4
        exact absurd h4 (by decide)
      · rw [hempty "no criteria" (by decide) (List.isEmpty_iff.mp hd)] at h4
        exact absurd h4 (by decide)
    · simp only [map_review_status_to_stars]
      rcases h4 with h4 | h4 <;> simp [hd, h1, h2, h3, h4]
  · intro h0 h1 h2 h3 h4 h5
    simp only [map_review_status_to_stars]
    simp [h0, h1, h2, h3, h4, h5]

/-- Witness for C1: the precedence clauses applied at the spec's concrete
review-status strings. -/
theorem star_rating_precedence_witness :
    map_review_status_to_stars
      (some "criteria provided, multiple submitters, no conflicts") = "3" ∧
    map_review_status_to_stars (some "criteria provided, multiple submitters") = "2" ∧
    map_review_status_to_stars (some "criteria provided, single submitter") = "1" ∧
    map_review_status_to_stars (some "no assertion provided") = "0" ∧
    map_review_status_to_stars (some "gibberish") = "N/A" :=
  ⟨(star_rating_precedence.1 "criteria provided, multiple submitters, no conflicts").2.1
      (by decide) (by decide) (by decide),
   (star_rating_precedence.1 "criteria provided, multiple submitters").2.2.1
      (by decide) (by decide) (by decide),
   (star_rating_precedence.1 "criteria provided, single submitter").2.2.2.1
      (by decide) (by decide) (by decide),
   (star_rating_precedence.1 "no assertion provided").2.2.2.2.1
      (by decide) (by decide) (by decide) (Or.inl (by decide)),
   (star_rating_precedence.1 "gibberish").2.2.2.2.2
      (by decide) (by decide) (by decide) (by decide) (by decide) (by decide)⟩

/-! ## Claim C2 -/

/-- A concrete not-found fetch result (the dict fetch_clinvar_variant
returns when the search phase yields zero identifiers). -/
def notFoundFetch : FetchData :=
  { variant := none
    summary := none
    hgvs := some "NC_000017.11:g.45983420G>T"
    found := false
    clinvar_id := none }

/-- C2 counterexample: on a not-found lookup the claim requires every
significance-bearing field to carry its sentinel, but at this concrete
not-found input star rating, review status and associated conditions are
null (Python None); only clinical significance carries "Not found". -/
theorem not_found_sentinels_counterexample :
    (get_variant_info notFoundFetch).map VariantInfo.star_rating = Except.ok none ∧
    (get_variant_info notFoundFetch).map VariantInfo.review_status = Except.ok none ∧
    (get_variant_info notFoundFetch).map VariantInfo.conditions_assoc = Except.ok none ∧
    (get_variant_info notFoundFetch).map VariantInfo.clinical_significance =
      Except.ok (some (XVal.s "Not found")) :=
  ⟨rfl, rfl, rfl, rfl⟩

/-- C2 amended: whenever the data passed to get_variant_info has
found = false, the returned record carries the sentinel "Not found" in
clinical significance only; star rating, review status, associated
conditions and every other field besides the echoed hgvs and clinvar id
are null, not sentinel strings. -/
theorem not_found_sentinels_amended :
    ∀ data : FetchData, data.found = false →
      get_variant_info data = Except.ok
        { blankInfo with
          hgvs := data.hgvs.map XVal.s
          clinvar_id := some (data.clinvar_id.getD (XVal.s ""))
          clinical_significance := some (XVal.s "Not found") } := by
  intro d h
  simp [get_variant_info, h, notFoundInfo]

/-- Witness for C2 amended at a concrete not-found record. -/
theorem not_found_sentinels_amended_witness :
    get_variant_info notFoundFetch = Except.ok
      { blankInfo with
        hgvs := some (XVal.s "NC_000017.11:g.45983420G>T")
        clinvar_id := some (XVal.s "")
        clinical_significance := some (XVal.s "Not found") } :=
  not_found_sentinels_amended notFoundFetch rfl

/-! ## Claim C3 -/

/-- A ClinVar service oracle whose esearch responds with an empty IdList
and whose other endpoints succeed trivially. -/
def zeroIdNet : Net :=
  { search := fun _ =>
      some (true, XVal.obj [("eSearchResult", XVal.obj [("IdList", XVal.obj [])])])
    efetch := fun _ => some (true, XVal.obj [])
    esummary := fun _ => some (true, XVal.obj []) }

/-- C3 counterexample: for the empty HGVS input the claim requires that no
call be issued to the annotation service, but fetch_clinvar_variant issues
the esearch call (with the quoted empty term) unconditionally — likewise
for a null HGVS, which is interpolated as "None". -/
theorem empty_hgvs_no_call_counterexample :
    (fetch_clinvar_variant zeroIdNet (some "")).2 = [CallRec.search "\"\"[variant name]"] ∧
    (fetch_clinvar_variant zeroIdNet (some "")).2.isEmpty = false ∧
    (fetch_clinvar_variant zeroIdNet none).2 = [CallRec.search "\"None\"[variant name]"] :=
  ⟨rfl, rfl, rfl⟩

/-- C3 amended: there is no short-circuit for null or empty HGVS input.
For every HGVS value the call trace begins with the esearch call; when that
search yields zero identifiers the function returns the found=false record
and issues no further calls (the annotation that follows from that record
has "Not found" clinical significance and null, not sentinel, star
rating/review status/conditions, per the amended C2). -/
theorem empty_hgvs_no_call_amended :
    ∀ (net : Net) (hgvs : Option String),
      (fetch_clinvar_variant net hgvs).2.head? =
        some (CallRec.search (searchTerm hgvs)) ∧
      (∀ doc, net.search (searchTerm hgvs) = some (true, doc) →
        extractId doc = Except.ok none →
        fetch_clinvar_variant net hgvs =
          (Except.ok { variant := none, summary := none, hgvs := hgvs,
                       found := false, clinvar_id := none },
           [CallRec.search (searchTerm hgvs)])) := by
  intro net hgvs
  constructor
  · simp only [fetch_clinvar_variant]
    repeat' split
    all_goals rfl
  · intro doc hs he
    simp [fetch_clinvar_variant, hs, he]

/-- Witness for C3 amended: at the zero-identifier oracle and the empty
HGVS string the search call is issued and the not-found record returned. -/
theorem empty_hgvs_no_call_amended_witness :
    fetch_clinvar_variant zeroIdNet (some "") =
      (Except.ok { variant := none, summary := none, hgvs := some "",
                   found := false, clinvar_id := none },
       [CallRec.search "\"\"[variant name]"]) :=
  (empty_hgvs_no_call_amended zeroIdNet (some "")).2
    (XVal.obj [("eSearchResult", XVal.obj [("IdList", XVal.obj [])])]) rfl rfl

/-! ## Claim C4 -/

/-- Fetch result whose summary's assembly list has a non-current first
entry (chr 17) and a current-flagged second entry (chr 12). -/
def twoAssemblyFetch : FetchData :=
  { variant := none
    summary := some (XVal.obj [("eSummaryResult", XVal.obj [("DocumentSummarySet",
      XVal.obj [("DocumentSummary", XVal.obj [("variation_set", XVal.obj [("variation",
        XVal.obj [("variation_loc", XVal.obj [("assembly_set", XVal.arr [
          XVal.obj [("status", XVal.s "previous"), ("chr", XVal.s "17"),
                    ("start", XVal.s "100")],
          XVal.obj [("status", XVal.s "current"), ("chr", XVal.s "12"),
                    ("start", XVal.s "200")]])])])])])])])])
    hgvs := some "h"
    found := true
    clinvar_id := some (XVal.s "123") }

/-- C4 counterexample: with the current-flagged entry second in the list
the claim requires chromosome "12", but extraction returns "17" from the
first (non-current) entry, because chrom is always unset when the scan
starts and the accept condition is a disjunction with that test. -/
theorem chrom_current_flag_counterexample :
    (get_variant_info twoAssemblyFetch).map VariantInfo.chrom =
      Except.ok (some (XVal.s "17")) ∧
    (XVal.s "17" = XVal.s "12") = False :=
  ⟨rfl, by simp⟩

/-- C4 amended: the scan accepts the first entry of the assembly list
unconditionally whenever the chromosome is still unset — which is always
the case when get_variant_info reaches the scan — so the "current" flag
never influences which entry supplies the chromosome; the flagged entry is
used only if it happens to come first. -/
theorem chrom_first_entry_amended :
    ∀ (af : List (String × XVal)) (rest : List XVal) (r : VariantInfo),
      truthyO r.chrom = false →
      chromLoop (XVal.obj af :: rest) r = Except.ok (
        let r1 := { r with chrom := some ((lookupField af "chr").getD (XVal.s "")) }
        if !truthyO r1.pos
        then { r1 with pos := some ((lookupField af "start").getD (XVal.s "")) }
        else r1) := by
  intro af rest r h
  simp [chromLoop, h]

/-- Witness for C4 amended: the first entry wins although the second is
the one flagged "current". -/
theorem chrom_first_entry_amended_witness :
    chromLoop [XVal.obj [("status", XVal.s "previous"), ("chr", XVal.s "17")],
               XVal.obj [("status", XVal.s "current"), ("chr", XVal.s "12")]] blankInfo =
      Except.ok { blankInfo with chrom := some (XVal.s "17"), pos := some (XVal.s "") } :=
  chrom_first_entry_amended
    [("status", XVal.s "previous"), ("chr", XVal.s "17")]
    [XVal.obj [("status", XVal.s "current"), ("chr", XVal.s "12")]] blankInfo rfl

/-! ## Claim C8 -/

/-- Fetch result whose summary carries the SPDI of the spec's worked
example. -/
def spdiFetch : FetchData :=
  { variant := none
    summary := some (XVal.obj [("eSummaryResult", XVal.obj [("DocumentSummarySet",
      XVal.obj [("DocumentSummary", XVal.obj [("variation_set", XVal.obj [("variation",
        XVal.obj [("canonical_spdi", XVal.s "NC_000017.11:45983419:G:T")])])])])])])
    hgvs := some "NC_000017.11:g.45983420G>T"
    found := true
    clinvar_id := some (XVal.s "123") }

/-- C8: for every SPDI with at least 4 colon-delimited parts the extraction
takes reference-sequence id from part 0, the position from part 1 rendered
1-based (decimal value plus one) when part 1 is all digits and verbatim
otherwise, and ref/alt from parts 2 and 3; in particular the summary with
SPDI "NC_000017.11:45983419:G:T" yields "NC_000017.11", "45983420", "G",
"T" through get_variant_info. -/
theorem spdi_decoding :
    (∀ (spdi : String) (r : VariantInfo), 4 ≤ (pySplit ':' spdi).length →
      (applySpdi spdi r).ref_seq_id = some (XVal.s ((pySplit ':' spdi).getD 0 "")) ∧
      (applySpdi spdi r).ref = some (XVal.s ((pySplit ':' spdi).getD 2 "")) ∧
      (applySpdi spdi r).alt = some (XVal.s ((pySplit ':' spdi).getD 3 "")) ∧
      (pyIsDigitStr ((pySplit ':' spdi).getD 1 "") = true →
        (applySpdi spdi r).pos =
          some (XVal.s (natToStr (decValue ((pySplit ':' spdi).getD 1 "").data + 1)))) ∧
      (pyIsDigitStr ((pySplit ':' spdi).getD 1 "") = false →
        (applySpdi spdi r).pos = some (XVal.s ((pySplit ':' spdi).getD 1 "")))) ∧
    (get_variant_info spdiFetch).map VariantInfo.ref_seq_id =
      Except.ok (some (XVal.s "NC_000017.11")) ∧
    (get_variant_info spdiFetch).map VariantInfo.pos =
      Except.ok (some (XVal.s "45983420")) ∧
    (get_variant_info spdiFetch).map VariantInfo.ref =
      Except.ok (some (XVal.s "G")) ∧
    (get_variant_info spdiFetch).map VariantInfo.alt =
      Except.ok (some (XVal.s "T")) := by
  refine ⟨fun spdi r h4 => ⟨?_, ?_, ?_, ?_, ?_⟩, rfl, rfl, rfl, rfl⟩
  · simp [applySpdi, h4]
  · simp [applySpdi, h4]
  · simp [applySpdi, h4]
  · intro hd
    simp only [applySpdi]
    rw [if_pos h4, if_pos hd]
  · intro hd
    simp only [applySpdi]
    rw [if_pos h4, if_neg (by rw [hd]; simp)]

/-- Witness for C8 at the spec's concrete SPDI string. -/
theorem spdi_decoding_witness :
    (applySpdi "NC_000017.11:45983419:G:T" blankInfo).ref_seq_id =
      some (XVal.s "NC_000017.11") ∧
    (applySpdi "NC_000017.11:45983419:G:T" blankInfo).pos =
      some (XVal.s "45983420") :=
  ⟨(spdi_decoding.1 "NC_000017.11:45983419:G:T" blankInfo (by decide)).1,
   (spdi_decoding.1 "NC_000017.11:45983419:G:T" blankInfo (by decide)).2.2.2.1 (by decide)⟩

/-! ## Claim C9 -/

/-- A transport-failing LOVD oracle (requests.get raises). -/
def lovdFailNet : LovdNet := { resp := fun _ => none }

/-- A succeeding LOVD oracle with an empty JSON body. -/
def lovdOkNet : LovdNet := { resp := fun _ => some (true, XVal.obj []) }

/-- The example variant of the module's own doc string (17:12345:A:T). -/
def lovdVar : HGVSVariant :=
  { chrom := "17"
    pos := 12345
    ref := "A"
    alt := "T"
    genome_build := "GRCh38" }

/-- C9 counterexample: at a transport-failing oracle _query_lovd re-raises
from the except block before the time.sleep(0.25) line, so the effect trace
is the HTTP GET alone with no sleep — the claimed delay on every path,
failure paths included, does not hold. -/
theorem pacing_delay_counterexample :
    (query_lovd lovdFailNet lovdVar "all" "mane" "True" "True").2 =
      [Eff.httpGet "https://rest.variantvalidator.org/LOVD/lovd/GRCh38/17:12345:A:T/all/mane/True/True?content-type=application/json"] ∧
    (query_lovd lovdFailNet lovdVar "all" "mane" "True" "True").2.any effIsSleep = false ∧
    (query_lovd lovdFailNet lovdVar "all" "mane" "True" "True").1 = Except.error () :=
  ⟨rfl, rfl, rfl⟩

/-- C9 amended: the 250 ms pacing delay follows the external call on the
success path only (transport success and a status passing
raise_for_status); on a transport exception or an HTTP-error status the
exception propagates before the sleep line is reached, so no delay occurs
on failure paths. -/
theorem pacing_delay_amended :
    ∀ (net : LovdNet) (v : HGVSVariant) (tm sel co lo : String),
      (∀ doc, net.resp (lovdUrl v tm sel co lo) = some (true, doc) →
        query_lovd net v tm sel co lo =
          (Except.ok doc, [Eff.httpGet (lovdUrl v tm sel co lo), Eff.sleepMs 250])) ∧
      (net.resp (lovdUrl v tm sel co lo) = none →
        query_lovd net v tm sel co lo =
          (Except.error (), [Eff.httpGet (lovdUrl v tm sel co lo)])) ∧
      (∀ doc, net.resp (lovdUrl v tm sel co lo) = some (false, doc) →
        query_lovd net v tm sel co lo =
          (Except.error (), [Eff.httpGet (lovdUrl v tm sel co lo)])) := by
  intro net v tm sel co lo
  refine ⟨?_, ?_, ?_⟩ <;> intros <;> simp [query_lovd, *]

/-- Witness for C9 amended: at a succeeding oracle the trace is the GET
followed by the 250 ms sleep. -/
theorem pacing_delay_amended_witness :
    query_lovd lovdOkNet lovdVar "all" "mane" "True" "True" =
      (Except.ok (XVal.obj []),
       [Eff.httpGet "https://rest.variantvalidator.org/LOVD/lovd/GRCh38/17:12345:A:T/all/mane/True/True?content-type=application/json",
        Eff.sleepMs 250]) :=
  (pacing_delay_amended lovdOkNet lovdVar "all" "mane" "True" "True").1 (XVal.obj []) rfl

/-! ## Loader lemmas -/

/-- An existence check stays true when the table only grows at the end. -/
theorem rowExists_of_prefix {db db2 : List Row} {pid : Int} {v : Nat}
    (hpre : db <+: db2) (h : rowExists db pid v = true) : rowExists db2 pid v = true := by
  obtain ⟨t, ht⟩ := hpre
  subst ht
  simp [rowExists, List.any_append] at h ⊢
  exact Or.inl h

/-- Appending a row whose key is absent preserves key uniqueness. -/
theorem uniqKeys_insert (db : List Row) (row : Row) (hu : uniqKeys db)
    (he : rowExists db row.patient_id row.variant_number = false) :
    uniqKeys (db ++ [row]) := by
  rw [uniqKeys, List.pairwise_append]
  refine ⟨hu, List.pairwise_singleton _ _, ?_⟩
  intro a ha b hb
  have hb' : b = row := by simpa using hb
  subst hb'
  intro hab
  have := List.any_eq_false.mp he a ha
  simp [Bool.and_eq_true, beq_iff_eq] at this
  exact absurd hab.2 (this hab.1)

/-- The inserted row is found by the existence check on the grown table. -/
theorem rowExists_append_self (db : List Row) (pid : Int) (v : Nat)
    (c p i r a : String) :
    rowExists (db ++ [{ patient_id := pid, variant_number := v, chrom := c,
                        pos := p, vid := i, ref := r, alt := a }]) pid v = true := by
  simp [rowExists, List.any_append]

/-- Structural facts about one completed per-line loop: the table only
grows at the end; the consumed ordinals are exactly v, v+1, ... in file
order; every non-comment line parsed; every consumed ordinal has a row in
the final table; and key uniqueness is preserved. -/
theorem loadLoop_spec :
    ∀ (pid : Int) (lines : List String) (db : List Row) (v : Nat) (res : LoopRes),
      loadLoop pid lines db v = some res →
      db <+: res.db ∧
      res.ords = List.range' v (nonCommentCount lines) ∧
      (∀ l ∈ lines, pyStartsWith l "#" = false → (parseLine l).isSome = true) ∧
      (∀ k, k < nonCommentCount lines → rowExists res.db pid (v + k) = true) ∧
      (uniqKeys db → uniqKeys res.db) := by
  intro pid lines
  induction lines with
  | nil =>
    intro db v res h
    simp only [loadLoop] at h
    injection h with h1
    subst h1
    refine ⟨List.prefix_refl _, by simp [nonCommentCount], ?_, ?_, fun hu => hu⟩
    · intro l hl
      exact absurd hl (List.not_mem_nil l)
    · intro k hk
      simp [nonCommentCount] at hk
  | cons x rest ih =>
    intro db v res h
    simp only [loadLoop] at h
    by_cases hx : pyStartsWith x "#" = true
    · rw [if_pos hx] at h
      obtain ⟨h1, h2, h3, h4, h5⟩ := ih db v res h
      have hn : nonCommentCount (x :: rest) = nonCommentCount rest := by
        simp [nonCommentCount, hx]
      refine ⟨h1, by rw [hn]; exact h2, ?_, ?_, h5⟩
      · intro l hl hcom
        rcases List.mem_cons.mp hl with rfl | hmem
        · rw [hcom] at hx
          exact absurd hx Bool.false_ne_true
        · exact h3 l hmem hcom
      · intro k hk
        rw [hn] at hk
        exact h4 k hk
    · rw [if_neg hx] at h
      have hx' : pyStartsWith x "#" = false := Bool.eq_false_iff.mpr hx
      have hn : nonCommentCount (x :: rest) = nonCommentCount rest + 1 := by
        simp [nonCommentCount, hx']
      rcases hp : parseLine x with _ | ⟨c, p, i, r, a⟩
      · simp [hp] at h
      · simp only [hp] at h
        by_cases he : rowExists db pid v = true
        · rw [if_pos he] at h
          rcases Option.map_eq_some'.mp h with ⟨res', hres', hfres⟩
          subst hfres
          obtain ⟨h1, h2, h3, h4, h5⟩ := ih db (v + 1) res' hres'
          refine ⟨h1, ?_, ?_, ?_, h5⟩
          · rw [hn, h2]
            rfl
          · intro l hl hcom
            rcases List.mem_cons.mp hl with rfl | hmem
            · rw [hp]
              rfl
            · exact h3 l hmem hcom
          · intro k hk
            cases k with
            | zero => exact rowExists_of_prefix h1 he
            | succ k =>
              have : v + (k + 1) = (v + 1) + k := by omega
              rw [this]
              exact h4 k (by omega)
        · rw [if_neg he] at h
          rcases Option.map_eq_some'.mp h with ⟨res', hres', hfres⟩
          subst hfres
          obtain ⟨h1, h2, h3, h4, h5⟩ := ih _ (v + 1) res' hres'
          have hgrow : db <+: db ++ [{ patient_id := pid, variant_number := v, chrom := c,
                                       pos := p, vid := i, ref := r, alt := a }] :=
            List.prefix_append db _
          refine ⟨hgrow.trans h1, ?_, ?_, ?_, ?_⟩
          · rw [hn, h2]
            rfl
          · intro l hl hcom
            rcases List.mem_cons.mp hl with rfl | hmem
            · rw [hp]
              rfl
            · exact h3 l hmem hcom
          · intro k hk
            cases k with
            | zero =>
              exact rowExists_of_prefix h1 (rowExists_append_self db pid v c p i r a)
            | succ k =>
              have : v + (k + 1) = (v + 1) + k := by omega
              rw [this]
              exact h4 k (by omega)
          · intro hu
            exact h5 (uniqKeys_insert db _ hu (Bool.eq_false_iff.mpr he))

/-- When every ordinal the loop will consume already has a row (and every
non-comment line parses), the loop skips everything: the table is
unchanged, nothing is inserted, and the skip count is the non-comment line
count. -/
theorem loadLoop_allPresent :
    ∀ (pid : Int) (lines : List String) (db : List Row) (v : Nat),
      (∀ l ∈ lines, pyStartsWith l "#" = false → (parseLine l).isSome = true) →
      (∀ k, k < nonCommentCount lines → rowExists db pid (v + k) = true) →
      loadLoop pid lines db v =
        some { db := db, ins := 0, skp := nonCommentCount lines,
               ords := List.range' v (nonCommentCount lines) } := by
  intro pid lines
  induction lines with
  | nil =>
    intro db v _ _
    simp [loadLoop, nonCommentCount]
  | cons x rest ih =>
    intro db v hwf hall
    simp only [loadLoop]
    by_cases hx : pyStartsWith x "#" = true
    · rw [if_pos hx]
      have hn : nonCommentCount (x :: rest) = nonCommentCount rest := by
        simp [nonCommentCount, hx]
      rw [hn] at hall ⊢
      exact ih db v (fun l hl => hwf l (List.mem_cons_of_mem x hl)) hall
    · rw [if_neg hx]
      have hx' : pyStartsWith x "#" = false := Bool.eq_false_iff.mpr hx
      have hn : nonCommentCount (x :: rest) = nonCommentCount rest + 1 := by
        simp [nonCommentCount, hx']
      have hp : (parseLine x).isSome = true := hwf x (List.mem_cons_self x rest) hx'
      rcases hq : parseLine x with _ | ⟨c, p, i, r, a⟩
      · rw [hq] at hp
        exact absurd hp Bool.false_ne_true
      · simp only [hq]
        have he : rowExists db pid v = true := by
          have := hall 0 (by rw [hn]; omega)
          simpa using this
        rw [if_pos he]
        have hall' : ∀ k, k < nonCommentCount rest → rowExists db pid ((v + 1) + k) = true := by
          intro k hk
          have : (v + 1) + k = v + (k + 1) := by omega
          rw [this]
          exact hall (k + 1) (by omega)
        rw [ih db (v + 1) (fun l hl => hwf l (List.mem_cons_of_mem x hl)) hall']
        rw [hn]
        rfl

/-! ## Claim C5 -/

/-- C5: whenever a load completes, the ordinals consumed by the non-comment
lines are exactly 1..n in file order (n the non-comment line count),
independent of the prior table contents — duplicates consume an ordinal
without being re-inserted, and numbering restarts at 1 for the file. -/
theorem ordinal_continuity :
    ∀ (path : String) (lines : List String) (db dbOut : List Row)
      (pid : Int) (ins skp : Nat) (ords : List Nat),
      load_vcf_into_db path lines db = (dbOut, LoadStatus.done pid ins skp ords) →
      ords = List.range' 1 (nonCommentCount lines) := by
  intro path lines db dbOut pid ins skp ords h
  simp only [load_vcf_into_db] at h
  by_cases hsw : pyStartsWith (pyLower (stemOf path)) "patient" = false
  · rw [if_pos hsw] at h
    simp at h
  · rw [if_neg hsw] at h
    rcases hint : pyInt? (pyReplace (pyReplace (stemOf path) "Patient" "") "patient" "") with _ | pid0
    · simp only [hint] at h
      simp at h
    · simp only [hint] at h
      rcases hloop : loadLoop pid0 lines db 1 with _ | res
      · simp only [hloop] at h
        simp at h
      · simp only [hloop] at h
        simp only [Prod.mk.injEq, LoadStatus.done.injEq] at h
        rw [← h.2.2.2.2]
        exact (loadLoop_spec pid0 lines db 1 res hloop).2.1

/-- Witness for C5: a load over one comment line, one duplicate line (its
key pre-seeded) and one new line consumes ordinals [1, 2]. -/
theorem ordinal_continuity_witness :
    ([1, 2] : List Nat) =
      List.range' 1 (nonCommentCount ["#h", "1\t100\trs1\tA\tG", "1\t200\trs2\tA\tT"]) :=
  ordinal_continuity "Patient1.vcf"
    ["#h", "1\t100\trs1\tA\tG", "1\t200\trs2\tA\tT"]
    [{ patient_id := 1, variant_number := 1, chrom := "9", pos := "9", vid := "9", ref := "9", alt := "9" }]
    [{ patient_id := 1, variant_number := 1, chrom := "9", pos := "9", vid := "9", ref := "9", alt := "9" },
     { patient_id := 1, variant_number := 2, chrom := "1", pos := "200", vid := "rs2", ref := "A", alt := "T" }]
    1 1 1 [1, 2] rfl

/-! ## Claim C6 -/

/-- C6: ingestion is idempotent — after a completed load, re-loading the
same file leaves the table exactly as it was, inserts zero rows, skips
every non-comment line, and consumes the same ordinals. -/
theorem ingestion_idempotent :
    ∀ (path : String) (lines : List String) (db dbOut : List Row)
      (pid : Int) (ins skp : Nat) (ords : List Nat),
      load_vcf_into_db path lines db = (dbOut, LoadStatus.done pid ins skp ords) →
      load_vcf_into_db path lines dbOut =
        (dbOut, LoadStatus.done pid 0 (nonCommentCount lines) ords) := by
  intro path lines db dbOut pid ins skp ords h
  simp only [load_vcf_into_db] at h ⊢
  by_cases hsw : pyStartsWith (pyLower (stemOf path)) "patient" = false
  · rw [if_pos hsw] at h
    simp at h
  · rw [if_neg hsw] at h ⊢
    rcases hint : pyInt? (pyReplace (pyReplace (stemOf path) "Patient" "") "patient" "") with _ | pid0
    · simp only [hint] at h
      simp at h
    · simp only [hint] at h ⊢
      rcases hloop : loadLoop pid0 lines db 1 with _ | res
      · simp only [hloop] at h
        simp at h
      · simp only [hloop] at h
        simp only [Prod.mk.injEq, LoadStatus.done.injEq] at h
        obtain ⟨hdb, hpid, hins, hskp, hords⟩ := h
        obtain ⟨_, hrange, hwf, hpresent, _⟩ := loadLoop_spec pid0 lines db 1 res hloop
        have hsecond := loadLoop_allPresent pid0 lines res.db 1 hwf
          (fun k hk => hpresent k hk)
        rw [hdb] at hsecond
        rw [hsecond]
        rw [← hdb, ← hpid, ← hords, hrange]

/-- Witness for C6: loading the single-line Patient1 file a second time
over the table it produced inserts nothing and skips its one line. -/
theorem ingestion_idempotent_witness :
    load_vcf_into_db "Patient1.vcf" ["1\t100\trs1\tA\tG"]
      [{ patient_id := 1, variant_number := 1, chrom := "1", pos := "100", vid := "rs1", ref := "A", alt := "G" }] =
      ([{ patient_id := 1, variant_number := 1, chrom := "1", pos := "100", vid := "rs1", ref := "A", alt := "G" }],
       LoadStatus.done 1 0 1 [1]) :=
  ingestion_idempotent "Patient1.vcf" ["1\t100\trs1\tA\tG"] []
    [{ patient_id := 1, variant_number := 1, chrom := "1", pos := "100", vid := "rs1", ref := "A", alt := "G" }]
    1 1 0 [1] rfl

/-! ## Claim C7 -/

/-- C7 counterexample: "PATIENT7" matches the claimed pattern (patient
followed by digits, case-insensitively), yet the file is rejected — and
with an error-level, not warning-level, event — because int("PATIENT7")
raises after the replace calls remove nothing; conversely "patient 7" does
not match the claimed digits-only pattern, yet the file is accepted with
patient id 7, because int(" 7") strips the space. -/
theorem filename_pattern_counterexample :
    load_vcf_into_db "PATIENT7.vcf" ["1\t100\trs1\tA\tG"] [] =
      ([], LoadStatus.erroredBadId) ∧
    load_vcf_into_db "patient 7.vcf" ["1\t100\trs1\tA\tG"] [] =
      ([{ patient_id := 7, variant_number := 1, chrom := "1", pos := "100",
          vid := "rs1", ref := "A", alt := "G" }],
       LoadStatus.done 7 1 0 [1]) :=
  ⟨rfl, rfl⟩

/-- C7 amended: a file is accepted iff the stem's lower-casing starts with
"patient" and deleting all occurrences of "Patient" and then "patient"
from the (original-case) stem leaves a string that Python int() accepts,
which becomes the patient id; a stem failing the prefix check is rejected
whole with a warning-level event, one failing the int() parse is rejected
whole with an error-level event; "Patient7.vcf" and "patient7.vcf" both
yield patient id 7, and "variants.vcf" is rejected with the warning. -/
theorem filename_pattern_amended :
    (∀ (path : String) (lines : List String) (db : List Row),
      (pyStartsWith (pyLower (stemOf path)) "patient" = false →
        load_vcf_into_db path lines db = (db, LoadStatus.warnedNonPatient)) ∧
      (pyStartsWith (pyLower (stemOf path)) "patient" = true →
        pyInt? (pyReplace (pyReplace (stemOf path) "Patient" "") "patient" "") = none →
        load_vcf_into_db path lines db = (db, LoadStatus.erroredBadId)) ∧
      (∀ k : Int, pyStartsWith (pyLower (stemOf path)) "patient" = true →
        pyInt? (pyReplace (pyReplace (stemOf path) "Patient" "") "patient" "") = some k →
        (load_vcf_into_db path lines db).2 = LoadStatus.crashed ∨
        ∃ dbOut ins skp ords,
          load_vcf_into_db path lines db = (dbOut, LoadStatus.done k ins skp ords))) ∧
    (load_vcf_into_db "Patient7.vcf" ["1\t100\trs1\tA\tG"] []).2 =
      LoadStatus.done 7 1 0 [1] ∧
    (load_vcf_into_db "patient7.vcf" ["1\t100\trs1\tA\tG"] []).2 =
      LoadStatus.done 7 1 0 [1] ∧
    load_vcf_into_db "variants.vcf" ["1\t100\trs1\tA\tG"] [] =
      ([], LoadStatus.warnedNonPatient) := by
  refine ⟨fun path lines db => ⟨?_, ?_, ?_⟩, rfl, rfl, rfl⟩
  · intro h
    simp only [load_vcf_into_db]
    rw [if_pos h]
  · intro h hint
    simp only [load_vcf_into_db]
    rw [if_neg (by rw [h]; simp)]
    simp only [hint]
  · intro k h hint
    simp only [load_vcf_into_db]
    rw [if_neg (by rw [h]; simp)]
    simp only [hint]
    rcases hloop : loadLoop k lines db 1 with _ | res
    · exact Or.inl rfl
    · exact Or.inr ⟨res.db, res.ins, res.skp, res.ords, rfl⟩

/-- Witness for C7 amended: the prefix-reject and id-reject clauses applied
at concrete filenames. -/
theorem filename_pattern_amended_witness :
    load_vcf_into_db "notes.txt" [] [] = ([], LoadStatus.warnedNonPatient) ∧
    load_vcf_into_db "patientX.vcf" [] [] = ([], LoadStatus.erroredBadId) :=
  ⟨(filename_pattern_amended.1 "notes.txt" [] []).1 rfl,
   (filename_pattern_amended.1 "patientX.vcf" [] []).2.1 rfl rfl⟩

/-! ## Claim C10 -/

/-- C10: starting from a table whose (patient_id, variant_number) keys are
unique, any sequence of loader calls preserves that uniqueness (the loader
inserts only behind its existence check and never updates or deletes —
every call leaves the prior table as a prefix of the new one), even though
the schema declares no uniqueness constraint. -/
theorem key_uniqueness_preserved :
    (∀ (files : List (String × List String)) (db : List Row),
        uniqKeys db → uniqKeys (loadMany files db)) ∧
    (∀ (path : String) (lines : List String) (db : List Row),
        db <+: (load_vcf_into_db path lines db).1) := by
  have hstep : ∀ (path : String) (lines : List String) (db : List Row),
      db <+: (load_vcf_into_db path lines db).1 ∧
      (uniqKeys db → uniqKeys (load_vcf_into_db path lines db).1) := by
    intro path lines db
    simp only [load_vcf_into_db]
    by_cases hsw : pyStartsWith (pyLower (stemOf path)) "patient" = false
    · rw [if_pos hsw]
      exact ⟨List.prefix_refl db, fun hu => hu⟩
    · rw [if_neg hsw]
      rcases hint : pyInt? (pyReplace (pyReplace (stemOf path) "Patient" "") "patient" "") with _ | pid0
      · simp only [hint]
        exact ⟨List.prefix_refl db, fun hu => hu⟩
      · simp only [hint]
        rcases hloop : loadLoop pid0 lines db 1 with _ | res
        · simp only [hloop]
          exact ⟨List.prefix_refl db, fun hu => hu⟩
        · simp only [hloop]
          obtain ⟨h1, _, _, _, h5⟩ := loadLoop_spec pid0 lines db 1 res hloop
          exact ⟨h1, h5⟩
  refine ⟨?_, fun path lines db => (hstep path lines db).1⟩
  intro files
  induction files with
  | nil => exact fun db hu => hu
  | cons f rest ih =>
    intro db hu
    exact ih ((load_vcf_into_db f.1 f.2 db).1) ((hstep f.1 f.2 db).2 hu)

/-- Witness for C10: uniqueness holds after loading a concrete file list
into the empty (hence key-unique) table. -/
theorem key_uniqueness_preserved_witness :
    uniqKeys (loadMany [("Patient1.vcf", ["1\t100\trs1\tA\tG", "1\t200\trs2\tA\tT"])] []) :=
  key_uniqueness_preserved.1 [("Patient1.vcf", ["1\t100\trs1\tA\tG", "1\t200\trs2\tA\tT"])] []
    List.Pairwise.nil

end PVV
